import Mathlib

/-!
Verification of the lexical classifier, stateful line highlighter, chunker and
theme store of `cppdf` (src/cppdf/cli.py), shallowly embedded in Lean 4.

Lines are modelled as `List Char` (Python lines come from `split("\n")`, so
contain no newline).  The tokenizer embeds the ordered regex alternation of
`draw_code_tokens` (`re.findall` semantics: at each position the alternatives
are tried in order, the first that matches wins; a position where none matches
is skipped).  The classifier embeds the if/elif chain of `draw_code_tokens`,
the highlighter embeds `draw_highlighted_line`, the chunker embeds the
chunking loop of `create_pdf`, and `THEMES` embeds the palette table.
-/

/-- Python `\s` on 7-bit input: space, tab, newline, carriage return,
vertical tab, form feed. -/
def isPySpace (c : Char) : Bool :=
  c = ' ' || c = '\t' || c = '\n' || c = '\r' || c = '\x0b' || c = '\x0c'

/-- ASCII letter, for the `[A-Za-z_]` classes of the token regex. -/
def isAsciiAlpha (c : Char) : Bool :=
  ('A' ≤ c && c ≤ 'Z') || ('a' ≤ c && c ≤ 'z')

/-- `[0-9]`. -/
def isDigitChar (c : Char) : Bool := '0' ≤ c && c ≤ '9'

/-- `[0-9a-fA-F]`. -/
def isHexDigitChar (c : Char) : Bool :=
  isDigitChar c || ('a' ≤ c && c ≤ 'f') || ('A' ≤ c && c ≤ 'F')

/-- `[A-Za-z_]`, the first character of an identifier. -/
def isIdentStart (c : Char) : Bool := isAsciiAlpha c || c = '_'

/-- `\w` on 7-bit input: `[A-Za-z0-9_]`. -/
def isWordChar (c : Char) : Bool := isAsciiAlpha c || isDigitChar c || c = '_'

/-- `[fFlLuU]`, numeric-literal suffix letters. -/
def isSuffixChar (c : Char) : Bool :=
  c = 'f' || c = 'F' || c = 'l' || c = 'L' || c = 'u' || c = 'U'

/-- The single-character operator class `[+\-*/%=<>!&|^~?:]`. -/
def isOp1Char (c : Char) : Bool :=
  c = '+' || c = '-' || c = '*' || c = '/' || c = '%' || c = '=' || c = '<' ||
  c = '>' || c = '!' || c = '&' || c = '|' || c = '^' || c = '~' || c = '?' || c = ':'

/-- The bracket/separator alternatives `\(|\)|\[|\]|\{|\}|;|,|\.|#`. -/
def isPunctChar (c : Char) : Bool :=
  c = '(' || c = ')' || c = '[' || c = ']' || c = '{' || c = '}' ||
  c = ';' || c = ',' || c = '.' || c = '#'

/-- Number of leading characters of `l` satisfying `p` (a greedy `p*`). -/
def countWhile (p : Char → Bool) (l : List Char) : Nat := (l.takeWhile p).length

/-- First-some choice, the semantics of regex alternation `|`. -/
def altOr (a b : Option Nat) : Option Nat :=
  match a with
  | some n => some n
  | none => b

/-- Scan the body of a quoted literal after the opening quote `q`, per
`[^q\\]*(?:\\.[^q\\]*)*q`: a backslash escapes the next character (which, as
`.`, may not be a newline); the match ends at the first unescaped `q`.
Returns the number of characters consumed, including the closing quote. -/
def scanStr (q : Char) : List Char → Option Nat
  | [] => none
  | d :: r =>
    if d = q then some 1
    else if d = '\\' then
      match r with
      | [] => none
      | e :: r2 => if e = '\n' then none else (scanStr q r2).map (· + 2)
    else (scanStr q r).map (· + 1)

/-- A matcher takes the head character `c` and the remaining characters and
returns `some n` when the alternative matches `c` followed by the first `n`
characters of the rest (total token length `n + 1`). -/
def matchStrLit (q : Char) (c : Char) (rest : List Char) : Option Nat :=
  if c = q then scanStr q rest else none

/-- `0x[0-9a-fA-F]+`. -/
def matchHex (c : Char) (rest : List Char) : Option Nat :=
  if c = '0' then
    match rest with
    | 'x' :: r =>
      let k := countWhile isHexDigitChar r
      if k = 0 then none else some (1 + k)
    | _ => none
  else none

/-- `[0-9]+\.?[0-9]*[fFlLuU]*`. -/
def matchDec (c : Char) (rest : List Char) : Option Nat :=
  if isDigitChar c then
    let k1 := countWhile isDigitChar rest
    let r1 := rest.drop k1
    match r1 with
    | '.' :: r2 =>
      let k2 := countWhile isDigitChar r2
      let k3 := countWhile isSuffixChar (r2.drop k2)
      some (k1 + 1 + k2 + k3)
    | _ => some (k1 + countWhile isSuffixChar r1)
  else none

/-- `[A-Za-z_]\w*`. -/
def matchIdent (c : Char) (rest : List Char) : Option Nat :=
  if isIdentStart c then some (countWhile isWordChar rest) else none

/-- The multi-character operator alternatives
`::|->|\+\+|--|<<|>>|<=|>=|==|!=|&&|\|\|` (pairwise distinct two-character
strings, so order among them is irrelevant). -/
def matchOp2 (c : Char) (rest : List Char) : Option Nat :=
  if (c = ':' && rest.head? = some ':') ||
     (c = '-' && rest.head? = some '>') ||
     (c = '+' && rest.head? = some '+') ||
     (c = '-' && rest.head? = some '-') ||
     (c = '<' && rest.head? = some '<') ||
     (c = '>' && rest.head? = some '>') ||
     (c = '<' && rest.head? = some '=') ||
     (c = '>' && rest.head? = some '=') ||
     (c = '=' && rest.head? = some '=') ||
     (c = '!' && rest.head? = some '=') ||
     (c = '&' && rest.head? = some '&') ||
     (c = '|' && rest.head? = some '|') then some 1 else none

/-- `[+\-*/%=<>!&|^~?:]`. -/
def matchOp1 (c : Char) (_rest : List Char) : Option Nat :=
  if isOp1Char c then some 0 else none

/-- `\(|\)|\[|\]|\{|\}|;|,|\.|#`. -/
def matchPunct (c : Char) (_rest : List Char) : Option Nat :=
  if isPunctChar c then some 0 else none

/-- `\s+`. -/
def matchWs (c : Char) (rest : List Char) : Option Nat :=
  if isPySpace c then some (countWhile isPySpace rest) else none

/-- The full ordered alternation of `token_pattern` in `draw_code_tokens`:
string literal, char literal, hex literal, decimal/float literal, identifier,
two-character operators, one-character operators, punctuation, whitespace. -/
def matchAlt (c : Char) (rest : List Char) : Option Nat :=
  altOr (matchStrLit '"' c rest) (altOr (matchStrLit '\'' c rest)
    (altOr (matchHex c rest) (altOr (matchDec c rest) (altOr (matchIdent c rest)
      (altOr (matchOp2 c rest) (altOr (matchOp1 c rest)
        (altOr (matchPunct c rest) (matchWs c rest))))))))

/-- `re.findall` scanning: at each position try `matchAlt`; on a match, emit
the matched token and continue after it; otherwise skip one character (the
character is silently dropped).  Structured with explicit fuel (each step
consumes at least one character, so fuel `= length` suffices). -/
def tokenizeFuel : Nat → List Char → List (List Char)
  | 0, _ => []
  | _ + 1, [] => []
  | fuel + 1, c :: rest =>
    match matchAlt c rest with
    | some n => (c :: rest.take n) :: tokenizeFuel fuel (rest.drop n)
    | none => tokenizeFuel fuel rest

/-- Tokenize one line: `re.findall(token_pattern, line)`. -/
def tokenize (cs : List Char) : List (List Char) := tokenizeFuel cs.length cs

/-- Concatenation of the texts of a token stream. -/
def concatAll (l : List (List Char)) : List Char := l.foldr (· ++ ·) []

/-- A character always matched by some alternative of the lexical rules,
whatever its context: letters, digits, underscore, whitespace, the operator
characters and the bracket/separator characters (7-bit source without exotic
symbols; quotes and backslash are excluded since they match only in a
well-formed literal context). -/
def coveredChar (c : Char) : Bool :=
  isIdentStart c || isDigitChar c || isPySpace c || isOp1Char c || isPunctChar c

/-- Python `str.strip()`: remove leading and trailing whitespace. -/
def pyStrip (t : List Char) : List Char :=
  ((t.dropWhile isPySpace).reverse.dropWhile isPySpace).reverse

/-- Python `str.isspace()`: nonempty and all whitespace. -/
def isSpaceTok (t : List Char) : Bool := !t.isEmpty && t.all isPySpace

/-- `re.match(r"^[A-Za-z_]\w*$", token)`: identifier-shaped token. -/
def isIdentShaped (t : List Char) : Bool :=
  match t with
  | [] => false
  | c :: r => isIdentStart c && r.all isWordChar

/-- `0x[0-9a-fA-F]+` anchored at both ends. -/
def isHexShaped (t : List Char) : Bool :=
  match t with
  | '0' :: 'x' :: r => !r.isEmpty && r.all isHexDigitChar
  | _ => false

/-- `\d+\.?\d*[fFlLuU]*` anchored at both ends. -/
def isDecShaped (t : List Char) : Bool :=
  !(t.takeWhile isDigitChar).isEmpty &&
    (match t.dropWhile isDigitChar with
     | '.' :: r2 => ((r2.dropWhile isDigitChar).dropWhile isSuffixChar).isEmpty
     | r1 => (r1.dropWhile isSuffixChar).isEmpty)

/-- `re.match(r"^(0x[0-9a-fA-F]+|\d+\.?\d*[fFlLuU]*)$", token)`. -/
def isNumShaped (t : List Char) : Bool := isHexShaped t || isDecShaped t

/-- Token `startswith`/`endswith` a double or single quote: the string/char
literal test of `draw_code_tokens`. -/
def isStrTok (t : List Char) : Bool :=
  (t.head? = some '"' && t.getLast? = some '"') ||
  (t.head? = some '\'' && t.getLast? = some '\'')

/-- The C++ keyword vocabulary of `draw_highlighted_line`. -/
def keywords : List String :=
  ["if", "else", "while", "for", "do", "switch", "case", "default", "break",
   "continue", "return", "goto", "const", "static", "extern", "auto",
   "register", "volatile", "mutable", "inline", "virtual", "explicit",
   "friend", "typedef", "public", "private", "protected", "class", "struct",
   "union", "enum", "namespace", "using", "template", "typename", "try",
   "catch", "throw", "new", "delete", "this", "const_cast", "dynamic_cast",
   "reinterpret_cast", "static_cast", "true", "false", "nullptr"]

/-- The C++ type vocabulary of `draw_highlighted_line`. -/
def types : List String :=
  ["int", "float", "double", "char", "bool", "void", "long", "short",
   "unsigned", "signed", "wchar_t", "char16_t", "char32_t", "size_t",
   "ptrdiff_t", "nullptr_t", "int8_t", "int16_t", "int32_t", "int64_t",
   "uint8_t", "uint16_t", "uint32_t", "uint64_t", "string", "vector", "map",
   "set", "list", "deque", "array", "pair", "tuple", "unique_ptr",
   "shared_ptr", "weak_ptr"]

/-- The semantic categories of section 3: token-level categories assigned by
`draw_code_tokens` plus the span-level categories assigned by
`draw_highlighted_line`. -/
inductive Category where
  | strLit
  | keyword
  | typeName
  | functionCall
  | memberAccess
  | namespaceAccess
  | pointerOrRef
  | operator
  | number
  | punctuation
  | whitespace
  | identifier
  | preprocessor
  | lineComment
  | blockComment
deriving DecidableEq, Repr

/-- The general operator list of the classifier (note: `*`, `&` and `:` are
absent; `*` and `&` are caught by the pointer/reference rule before it). -/
def operatorToks : List String :=
  ["+", "-", "/", "%", "=", "<", ">", "!", "|", "^", "~", "?",
   "++", "--", "<<", ">>", "<=", ">=", "==", "!=", "&&", "||"]

/-- The punctuation list of the classifier (note: `.` is absent). -/
def punctToks : List String :=
  ["(", ")", "[", "]", "\x7b", "\x7d", ";", ",", "#"]

/-- The if/elif classification chain of `draw_code_tokens`, evaluated for one
token given the running previous token (`prev_token`, already stripped except
after a whitespace token) and the literal next element of the token stream. -/
def classifyOne (prev : Option (List Char)) (next : Option (List Char))
    (t : List Char) : Category :=
  if isStrTok t then .strLit
  else if keywords.contains (String.mk t) then .keyword
  else if types.contains (String.mk t) then .typeName
  else if isIdentShaped t &&
          (match next with
           | some nt => !nt.isEmpty && pyStrip nt == ['(']
           | none => false) then .functionCall
  else if (prev == some ['.'] || prev == some ['-', '>']) && isIdentShaped t then
    .memberAccess
  else if prev == some [':', ':'] && isIdentShaped t then .namespaceAccess
  else if ["*", "&", "->", "::"].contains (String.mk t) then .pointerOrRef
  else if operatorToks.contains (String.mk t) then .operator
  else if isNumShaped t then .number
  else if punctToks.contains (String.mk t) then .punctuation
  else if isSpaceTok t then .whitespace
  else .identifier

/-- The classification loop of `draw_code_tokens`: each token sees the literal
next element; `prev_token` is the previous token itself if it was whitespace
(that branch `continue`s early) and the previous token stripped otherwise. -/
def classifyTokens (prev : Option (List Char)) :
    List (List Char) → List (List Char × Category)
  | [] => []
  | t :: rest =>
    let k := classifyOne prev rest.head? t
    (t, k) :: classifyTokens (if k = .whitespace then some t else some (pyStrip t)) rest

/-- Tokenize and classify one stretch of code, as `draw_code_tokens` does. -/
def classifyLine (s : String) : List (String × Category) :=
  (classifyTokens none (tokenize s.toList)).map (fun p => (String.mk p.1, p.2))

/-- Index of the first occurrence of `pat` in `cs` (Python `str.find`). -/
def findIdx (pat : List Char) : List Char → Option Nat
  | [] => if pat.isPrefixOf ([] : List Char) then some 0 else none
  | c :: t => if pat.isPrefixOf (c :: t) then some 0 else (findIdx pat t).map (· + 1)

/-- Python `pat in s`. -/
def containsSub (pat cs : List Char) : Bool := (findIdx pat cs).isSome

/-- `re.match(r"^\s*#", line)`: optional leading whitespace then `#`. -/
def isPreproc (line : List Char) : Bool :=
  match (line.dropWhile isPySpace).head? with
  | some c => c = '#'
  | none => false

/-- A styled span of one rendered line: a block-comment piece, a preprocessor
line, a line comment, or a stretch of code handed to `draw_code_tokens`. -/
inductive Span where
  | code (text : List Char)
  | blockComment (text : List Char)
  | lineComment (text : List Char)
  | preproc (text : List Char)
deriving DecidableEq, Repr

/-- `draw_highlighted_line` on a line entered in `Normal` state (entering
`in_block_comment = False`): block-comment region first, then preprocessor,
then line comment, then plain code.  Note that the text after a closed
`/* ... */` region is handed to `draw_code_tokens` (a `code` span), not
reprocessed for further comment regions.  The second component is the returned
exit `in_block_comment` flag. -/
def highlightNormal (line : List Char) : List Span × Bool :=
  match findIdx ['/', '*'] line with
  | some s =>
    match (findIdx ['*', '/'] (line.drop (s + 2))).map (· + (s + 2)) with
    | some e =>
      let before := line.take s
      let comment := (line.drop s).take (e + 2 - s)
      let after := line.drop (e + 2)
      ((if before.isEmpty then [] else [Span.code before]) ++
        [Span.blockComment comment] ++
        (if after.isEmpty then [] else [Span.code after]), false)
    | none =>
      let before := line.take s
      ((if before.isEmpty then [] else [Span.code before]) ++
        [Span.blockComment (line.drop s)], true)
  | none =>
    if isPreproc line then ([Span.preproc line], false)
    else
      match findIdx ['/', '/'] line with
      | some k =>
        let before := line.take k
        ((if before.isEmpty then [] else [Span.code before]) ++
          [Span.lineComment (line.drop k)], false)
      | none => ([Span.code line], false)

/-- `draw_highlighted_line`: if entering inside a block comment, close it at
the first `*/` (the tail after it is redrawn with
`draw_highlighted_line(..., False)`, whose returned state is discarded) and
return `False`; with no `*/` the whole line is one block-comment span and the
state stays `True`.  Otherwise process the line in `Normal` state. -/
def highlightLine (inBlock : Bool) (line : List Char) : List Span × Bool :=
  if inBlock then
    match findIdx ['*', '/'] line with
    | some e =>
      let commentPart := line.take (e + 2)
      let rest := line.drop (e + 2)
      (Span.blockComment commentPart ::
        (if rest.isEmpty then [] else (highlightNormal rest).1), false)
    | none => ([Span.blockComment line], true)
  else highlightNormal line

/-- `max_lines_per_chunk` in `create_pdf`. -/
def max_lines_per_chunk : Nat := 55

/-- One pagination chunk of a file, as built in `create_pdf`. -/
structure Chunk where
  start_line : Nat
  lines : List (List Char)
  is_first : Bool
  is_last : Bool
  entry_state : Bool
deriving DecidableEq, Repr

/-- The per-line update of the running `in_block_comment` flag in the chunking
loop of `create_pdf`: a line containing `/*` and no `*/` anywhere sets it,
else a line containing `*/` clears it, else it is unchanged. -/
def scanStep (flag : Bool) (line : List Char) : Bool :=
  if containsSub ['/', '*'] line && !containsSub ['*', '/'] line then true
  else if containsSub ['*', '/'] line then false
  else flag

/-- The chunk loop of `create_pdf`: chunk `idx` covers
`lines[idx*55 : min(idx*55+55, len)]`, receives the current flag as its entry
state, and the flag is then advanced over the chunk's own lines.  Fuel starts
at `numChunks`, the number of loop iterations. -/
def chunkLoop (lines : List (List Char)) (numChunks : Nat) :
    Nat → Nat → Bool → List Chunk
  | 0, _, _ => []
  | fuel + 1, idx, flag =>
    if idx < numChunks then
      let chunkStart := idx * max_lines_per_chunk
      let chunkEnd := min (chunkStart + max_lines_per_chunk) lines.length
      let chunkLines := (lines.drop chunkStart).take (chunkEnd - chunkStart)
      { start_line := chunkStart + 1, lines := chunkLines,
        is_first := idx == 0, is_last := idx == numChunks - 1,
        entry_state := flag } ::
        chunkLoop lines numChunks fuel (idx + 1) (chunkLines.foldl scanStep flag)
    else []

/-- The chunker of `create_pdf`: `num_chunks = (len(lines)+55-1)//55`; a file
longer than 55 lines is split by the chunk loop, otherwise it is rendered as a
single chunk with the default flags. -/
def makeChunks (lines : List (List Char)) : List Chunk :=
  let numChunks := (lines.length + max_lines_per_chunk - 1) / max_lines_per_chunk
  if lines.length > max_lines_per_chunk then
    chunkLoop lines numChunks numChunks 0 false
  else
    [{ start_line := 1, lines := lines, is_first := true, is_last := true,
       entry_state := false }]

/-- Modelled from the spec (section 4.4): the described per-line heuristic for
the chunker's forward scan, reading "a line containing `/*` without a later
`*/` sets the running flag true; a line containing `*/` clears it" with
"later" meaning after the first `/*` (the search position `4.3` uses): if the
line contains `/*` and no `*/` after it, the flag becomes true; else if the
line contains `*/`, it becomes false; else it is unchanged.  This is the
comparison definition for the refinement claim about `scanStep`. -/
def scanStepSpec (flag : Bool) (line : List Char) : Bool :=
  match findIdx ['/', '*'] line with
  | some s => if containsSub ['*', '/'] (line.drop (s + 2)) then false else true
  | none => if containsSub ['*', '/'] line then false else flag

/-- The built-in theme palettes (`THEMES` in src/cppdf/cli.py), in source
order, each palette as an association list in source order. -/
def THEMES : List (String × List (String × String)) :=
  [("catppuccin-mocha",
    [("bg", "#1e1e2e"), ("bg_page", "#11111b"), ("border", "#313244"),
     ("linenr", "#6c7086"), ("text", "#cdd6f4"), ("text_dim", "#bac2de"),
     ("comment", "#6c7086"), ("keyword", "#cba6f7"), ("function", "#89b4fa"),
     ("string", "#a6e3a1"), ("number", "#fab387"), ("preproc", "#f5c2e7"),
     ("type", "#f9e2af"), ("variable", "#cdd6f4"), ("property", "#89dceb"),
     ("operator", "#94e2d5"), ("punctuation", "#bac2de")]),
   ("catppuccin-latte",
    [("bg", "#eff1f5"), ("bg_page", "#e6e9ef"), ("border", "#ccd0da"),
     ("linenr", "#8c8fa1"), ("text", "#4c4f69"), ("text_dim", "#5c5f77"),
     ("comment", "#9ca0b0"), ("keyword", "#8839ef"), ("function", "#1e66f5"),
     ("string", "#40a02b"), ("number", "#fe640b"), ("preproc", "#ea76cb"),
     ("type", "#df8e1d"), ("variable", "#4c4f69"), ("property", "#04a5e5"),
     ("operator", "#179299"), ("punctuation", "#5c5f77")]),
   ("kanagawa-wave",
    [("bg", "#1F1F28"), ("bg_page", "#16161D"), ("border", "#54546D"),
     ("linenr", "#54546D"), ("text", "#DCD7BA"), ("text_dim", "#C8C093"),
     ("comment", "#727169"), ("keyword", "#957FB8"), ("function", "#7E9CD8"),
     ("string", "#98BB6C"), ("number", "#FFA066"), ("preproc", "#E46876"),
     ("type", "#E6C384"), ("variable", "#DCD7BA"), ("property", "#7FB4CA"),
     ("operator", "#C0A36E"), ("punctuation", "#C8C093")]),
   ("kanagawa-dragon",
    [("bg", "#181616"), ("bg_page", "#0d0c0c"), ("border", "#625e5a"),
     ("linenr", "#625e5a"), ("text", "#c5c9c5"), ("text_dim", "#a6a69c"),
     ("comment", "#7a8382"), ("keyword", "#8992a7"), ("function", "#8ba4b0"),
     ("string", "#87a987"), ("number", "#b98d7b"), ("preproc", "#c4746e"),
     ("type", "#c4b28a"), ("variable", "#c5c9c5"), ("property", "#8ea4a2"),
     ("operator", "#b6927b"), ("punctuation", "#9e9b93")]),
   ("kanagawa-lotus",
    [("bg", "#f2ecbc"), ("bg_page", "#d5cea3"), ("border", "#b5cbd2"),
     ("linenr", "#b5cbd2"), ("text", "#545464"), ("text_dim", "#43436c"),
     ("comment", "#9fb5c9"), ("keyword", "#8a6596"), ("function", "#6693bf"),
     ("string", "#6f894e"), ("number", "#e98a00"), ("preproc", "#c84053"),
     ("type", "#836f4a"), ("variable", "#545464"), ("property", "#4e8ca2"),
     ("operator", "#8a6596"), ("punctuation", "#625e5a")])]

/-- The key set every built-in palette defines, in source order. -/
def paletteKeys : List String :=
  ["bg", "bg_page", "border", "linenr", "text", "text_dim", "comment",
   "keyword", "function", "string", "number", "preproc", "type", "variable",
   "property", "operator", "punctuation"]

/-- The theme key each category's color is looked up under, as read off the
drawing code (`theme[...]` in `draw_code_tokens` and `draw_highlighted_line`).
Whitespace tokens are drawn as a blank advance and look up no color. -/
def categoryKey : Category → Option String
  | .strLit => some "string"
  | .keyword => some "keyword"
  | .typeName => some "type"
  | .functionCall => some "function"
  | .memberAccess => some "property"
  | .namespaceAccess => some "type"
  | .pointerOrRef => some "operator"
  | .operator => some "operator"
  | .number => some "number"
  | .punctuation => some "punctuation"
  | .whitespace => none
  | .identifier => some "variable"
  | .preprocessor => some "preproc"
  | .lineComment => some "comment"
  | .blockComment => some "comment"

/-- All categories of section 3, listed once each. -/
def allCategories : List Category :=
  [.strLit, .keyword, .typeName, .functionCall, .memberAccess,
   .namespaceAccess, .pointerOrRef, .operator, .number, .punctuation,
   .whitespace, .identifier, .preprocessor, .lineComment, .blockComment]

/-- Color lookup in one palette. -/
def lookupColor (palette : List (String × String)) (key : String) :
    Option String :=
  (palette.find? (fun p => p.1 == key)).map Prod.snd

/-! ## Supporting lemmas -/

theorem altOr_isSome_left (a b : Option Nat) (h : a.isSome = true) :
    (altOr a b).isSome = true := by
  cases a with
  | none => simp at h
  | some n => simp [altOr]

theorem altOr_isSome_right (a b : Option Nat) (h : b.isSome = true) :
    (altOr a b).isSome = true := by
  cases a with
  | none => simpa [altOr] using h
  | some n => simp [altOr]

theorem matchAlt_isSome (c : Char) (rest : List Char)
    (h : coveredChar c = true) : (matchAlt c rest).isSome = true := by
  unfold coveredChar at h
  simp only [Bool.or_eq_true] at h
  unfold matchAlt
  rcases h with ((((h | h) | h) | h) | h)
  · exact altOr_isSome_right _ _ (altOr_isSome_right _ _ (altOr_isSome_right _ _
      (altOr_isSome_right _ _ (altOr_isSome_left _ _ (by simp [matchIdent, h])))))
  · refine altOr_isSome_right _ _ (altOr_isSome_right _ _ (altOr_isSome_right _ _
      (altOr_isSome_left _ _ ?_)))
    unfold matchDec
    rw [if_pos h]
    dsimp only
    split <;> simp
  · exact altOr_isSome_right _ _ (altOr_isSome_right _ _ (altOr_isSome_right _ _
      (altOr_isSome_right _ _ (altOr_isSome_right _ _ (altOr_isSome_right _ _
        (altOr_isSome_right _ _ (altOr_isSome_right _ _ (by simp [matchWs, h]))))))))
  · exact altOr_isSome_right _ _ (altOr_isSome_right _ _ (altOr_isSome_right _ _
      (altOr_isSome_right _ _ (altOr_isSome_right _ _ (altOr_isSome_right _ _
        (altOr_isSome_left _ _ (by simp [matchOp1, h])))))))
  · exact altOr_isSome_right _ _ (altOr_isSome_right _ _ (altOr_isSome_right _ _
      (altOr_isSome_right _ _ (altOr_isSome_right _ _ (altOr_isSome_right _ _
        (altOr_isSome_right _ _ (altOr_isSome_left _ _ (by simp [matchPunct, h]))))))))

theorem tokenizeFuel_concat : ∀ fuel (cs : List Char), cs.length ≤ fuel →
    (∀ c ∈ cs, coveredChar c = true) → concatAll (tokenizeFuel fuel cs) = cs := by
  intro fuel
  induction fuel with
  | zero =>
    intro cs hlen _
    have : cs = [] := List.length_eq_zero.mp (Nat.le_zero.mp hlen)
    subst this
    simp [tokenizeFuel, concatAll]
  | succ n ih =>
    intro cs hlen hcov
    cases cs with
    | nil => simp [tokenizeFuel, concatAll]
    | cons c rest =>
      have hc := hcov c (List.mem_cons_self c rest)
      obtain ⟨k, hk⟩ := Option.isSome_iff_exists.mp (matchAlt_isSome c rest hc)
      simp only [tokenizeFuel, hk]
      have hdrop : (rest.drop k).length ≤ n := by
        rw [List.length_drop]
        simp only [List.length_cons] at hlen
        omega
      have hcov' : ∀ x ∈ rest.drop k, coveredChar x = true := fun x hx =>
        hcov x (List.mem_cons_of_mem _ (List.drop_subset k rest hx))
      show (c :: rest.take k) ++ concatAll (tokenizeFuel n (rest.drop k)) = c :: rest
      rw [ih _ hdrop hcov']
      simp [List.take_append_drop]

/-- If `pat` occurs in a suffix `l.drop n`, it occurs in `l`. -/
theorem findIdx_isSome_of_drop (pat l : List Char) :
    ∀ n, (findIdx pat (l.drop n)).isSome = true → (findIdx pat l).isSome = true := by
  induction l with
  | nil => intro n h; simpa [List.drop_nil] using h
  | cons c t ih =>
    intro n h
    cases n with
    | zero => simpa using h
    | succ m =>
      rw [List.drop_succ_cons] at h
      rw [findIdx]
      split
      · simp
      · simpa using ih m h

/-! ## Claim theorems -/

/-- C1.  Tokenizer completeness: for every input line composed only of
characters covered by the lexical rules (letters, digits, underscore,
whitespace, the operator characters and the bracket/separator characters —
7-bit source without exotic symbols), the token sequence produced by the
ordered regex alternation of `draw_code_tokens` is gap-free: concatenating
the text of all tokens, in order, equals the original line exactly. -/
theorem tokenizer_completeness (cs : List Char)
    (h : ∀ c ∈ cs, coveredChar c = true) : concatAll (tokenize cs) = cs :=
  tokenizeFuel_concat cs.length cs le_rfl h

theorem tokenizer_completeness_witness :
    (∀ c ∈ "int x = 42; y[3] += foo(x) % 2;".toList, coveredChar c = true) ∧
    concatAll (tokenize "int x = 42; y[3] += foo(x) % 2;".toList) =
      "int x = 42; y[3] += foo(x) % 2;".toList :=
  ⟨by decide, tokenizer_completeness _ (by decide)⟩

/-- C2.  Comment continuation: a line entered with `in_block_comment = true`
that contains no `*/` is classified as a single `BlockComment` span covering
the entire line, and the returned exit state is still `InBlockComment`. -/
theorem comment_continuation (line : List Char)
    (h : containsSub ['*', '/'] line = false) :
    highlightLine true line = ([Span.blockComment line], true) := by
  unfold containsSub at h
  have hf : findIdx ['*', '/'] line = none := by
    cases hc : findIdx ['*', '/'] line with
    | none => rfl
    | some e => rw [hc] at h; simp at h
  simp [highlightLine, hf]

theorem comment_continuation_witness :
    containsSub ['*', '/'] "  still inside a comment".toList = false ∧
    highlightLine true "  still inside a comment".toList =
      ([Span.blockComment "  still inside a comment".toList], true) :=
  ⟨by decide, comment_continuation _ (by decide)⟩

/-- C5.  Exit state after closing a carried-over block comment: every line
entered with state `InBlockComment` that contains `*/` returns exit state
`Normal` (`False`), including when the tail after `*/` reopens a `/*` with no
matching `*/` — the recursive redraw's returned state is discarded. -/
theorem close_block_comment_exit_normal (line : List Char)
    (h : containsSub ['*', '/'] line = true) :
    (highlightLine true line).2 = false := by
  unfold containsSub at h
  obtain ⟨e, he⟩ := Option.isSome_iff_exists.mp h
  have he' : findIdx ['*', '/'] line = some e := he
  simp [highlightLine, he']

theorem close_block_comment_exit_normal_witness :
    containsSub ['*', '/'] "x */ y /* z".toList = true ∧
    (highlightLine true "x */ y /* z".toList).2 = false :=
  ⟨by decide, close_block_comment_exit_normal _ (by decide)⟩

/-- C7.  Known string/comment interaction (documented limitation): on the
line `std::string s = "http://x.com";` processed in `Normal` state,
everything from the first `//` — although it lies inside the string literal —
to the end of the line becomes one `LineComment` span, truncating the
string's closing quote; no quote-context check shields it. -/
theorem string_comment_interaction :
    highlightLine false "std::string s = \"http://x.com\";".toList =
      ([Span.code "std::string s = \"http:".toList,
        Span.lineComment "//x.com\";".toList], false) := by decide

/-- C10.  Normal-state exits: a line entered in `Normal` state containing no
`/*` always exits in `Normal` state (preprocessor lines, `//` lines and plain
code all return `in_block_comment = false`); conversely, an exit in
`InBlockComment` state can only happen when the line contains `/*` with no
matching `*/` after it. -/
theorem normal_state_exit (line : List Char) :
    (containsSub ['/', '*'] line = false → (highlightLine false line).2 = false) ∧
    ((highlightLine false line).2 = true →
      ∃ s, findIdx ['/', '*'] line = some s ∧
        containsSub ['*', '/'] (line.drop (s + 2)) = false) := by
  have hline : highlightLine false line = highlightNormal line := by
    simp [highlightLine]
  rw [hline]
  cases hf : findIdx ['/', '*'] line with
  | none =>
    have hexit : (highlightNormal line).2 = false := by
      simp only [highlightNormal, hf]
      split
      · rfl
      · split <;> rfl
    exact ⟨fun _ => hexit, fun h => by rw [hexit] at h; exact absurd h (by simp)⟩
  | some s =>
    constructor
    · intro hcon
      rw [show containsSub ['/', '*'] line = (findIdx ['/', '*'] line).isSome from rfl,
        hf] at hcon
      simp at hcon
    · intro hexit
      refine ⟨s, rfl, ?_⟩
      simp only [highlightNormal, hf] at hexit
      cases he : (findIdx ['*', '/'] (line.drop (s + 2))).map (fun x => x + (s + 2)) with
      | some e => rw [he] at hexit; simp at hexit
      | none =>
        rw [Option.map_eq_none'] at he
        rw [show containsSub ['*', '/'] (line.drop (s + 2)) =
          (findIdx ['*', '/'] (line.drop (s + 2))).isSome from rfl, he]
        rfl

theorem normal_state_exit_witness :
    containsSub ['/', '*'] "int x = 1; // plain line".toList = false ∧
    (highlightLine false "int x = 1; // plain line".toList).2 = false :=
  ⟨by decide, (normal_state_exit _).1 (by decide)⟩

/-- C3 counterexample: on `a /* b */ /* c */` entered in `Normal` state, the
trailing text after the closing `*/` is emitted as a single code span — the
second `/* c */` region is not classified as a `BlockComment` span, contrary
to the claim that the tail is reprocessed from rule 2 onward. -/
theorem block_comment_tail_counterexample :
    highlightLine false "a /* b */ /* c */".toList =
      ([Span.code "a ".toList, Span.blockComment "/* b */".toList,
        Span.code " /* c */".toList], false) ∧
    Span.blockComment "/* c */".toList ∉
      (highlightLine false "a /* b */ /* c */".toList).1 := by decide

/-- C3 (amended).  For every line processed in `Normal` state containing `/*`
at position `s` with a matching `*/` ending at position `e + 1` on the same
line, the text after the closing `*/` is emitted as one ordinary code span
(tokenized and classified by `draw_code_tokens`, with no further comment
processing), and the exit state is `Normal`. -/
theorem block_comment_tail_as_code (line : List Char) (s e : Nat)
    (hs : findIdx ['/', '*'] line = some s)
    (he : (findIdx ['*', '/'] (line.drop (s + 2))).map (fun x => x + (s + 2)) =
      some e) :
    highlightLine false line =
      ((if (line.take s).isEmpty then [] else [Span.code (line.take s)]) ++
        [Span.blockComment ((line.drop s).take (e + 2 - s))] ++
        (if (line.drop (e + 2)).isEmpty then [] else [Span.code (line.drop (e + 2))]),
       false) := by
  have h0 : highlightLine false line = highlightNormal line := by
    simp [highlightLine]
  rw [h0]
  simp only [highlightNormal, hs, he]

theorem block_comment_tail_as_code_witness :
    findIdx ['/', '*'] "a /* b */ /* c */".toList = some 2 ∧
    (findIdx ['*', '/'] ("a /* b */ /* c */".toList.drop (2 + 2))).map
      (fun x => x + (2 + 2)) = some 7 ∧
    highlightLine false "a /* b */ /* c */".toList =
      ((if ("a /* b */ /* c */".toList.take 2).isEmpty then []
        else [Span.code ("a /* b */ /* c */".toList.take 2)]) ++
        [Span.blockComment (("a /* b */ /* c */".toList.drop 2).take (7 + 2 - 2))] ++
        (if ("a /* b */ /* c */".toList.drop (7 + 2)).isEmpty then []
         else [Span.code ("a /* b */ /* c */".toList.drop (7 + 2))]), false) :=
  ⟨by decide, by decide, block_comment_tail_as_code _ 2 7 (by decide) (by decide)⟩

/-- C4 counterexample: on the line `*/ x /*` the implemented chunker scan
clears the running flag (the line contains a `*/`, and the `"*/" not in line`
test looks at the whole line), while the described heuristic — `/*` with no
later `*/` sets the flag — sets it: the implemented scan and the described
heuristic are not equal on every line. -/
theorem chunker_scan_counterexample :
    scanStep false "*/ x /*".toList = false ∧
    scanStepSpec false "*/ x /*".toList = true := by decide

/-- C4 (amended).  The implemented per-line scan of `create_pdf` agrees with
the described later-occurrence heuristic on every line except those that
contain `/*` and contain `*/` only at positions not after the first `/*`;
formally, whenever the line either has no `/*`, or has some `*/` after its
first `/*`, or has no `*/` at all, the implemented update equals the
heuristic's update. -/
theorem chunker_scan_agreement (flag : Bool) (line : List Char)
    (h : (match findIdx ['/', '*'] line with
          | some s => !containsSub ['*', '/'] line ||
              containsSub ['*', '/'] (line.drop (s + 2))
          | none => true) = true) :
    scanStep flag line = scanStepSpec flag line := by
  cases hf : findIdx ['/', '*'] line with
  | none =>
    have hc : containsSub ['/', '*'] line = false := by
      rw [show containsSub ['/', '*'] line = (findIdx ['/', '*'] line).isSome from rfl,
        hf]
      rfl
    unfold scanStep scanStepSpec
    rw [hf, hc]
    simp
  | some s =>
    rw [hf] at h
    have hcp : containsSub ['/', '*'] line = true := by
      rw [show containsSub ['/', '*'] line = (findIdx ['/', '*'] line).isSome from rfl,
        hf]
      rfl
    unfold scanStep scanStepSpec
    rw [hf, hcp]
    dsimp only
    cases hb : containsSub ['*', '/'] line with
    | false =>
      have hd : containsSub ['*', '/'] (line.drop (s + 2)) = false := by
        cases hdd : containsSub ['*', '/'] (line.drop (s + 2)) with
        | false => rfl
        | true =>
          have hup := findIdx_isSome_of_drop ['*', '/'] line (s + 2) hdd
          rw [show containsSub ['*', '/'] line = (findIdx ['*', '/'] line).isSome
            from rfl, hup] at hb
          exact absurd hb (by simp)
      rw [hd]
      simp
    | true =>
      have hd : containsSub ['*', '/'] (line.drop (s + 2)) = true := by
        simpa [hb] using h
      rw [hd]
      simp [hb]

theorem chunker_scan_agreement_witness :
    (match findIdx ['/', '*'] "a /* b */ c".toList with
     | some s => !containsSub ['*', '/'] "a /* b */ c".toList ||
         containsSub ['*', '/'] ("a /* b */ c".toList.drop (s + 2))
     | none => true) = true ∧
    scanStep false "a /* b */ c".toList = scanStepSpec false "a /* b */ c".toList :=
  ⟨by decide, chunker_scan_agreement false _ (by decide)⟩

set_option maxHeartbeats 1600000 in
/-- C6.  Strict adjacency for `FunctionCall` and `MemberAccess`
classification: a token is classified `FunctionCall` only when the literally
next element of the token stream strips to `(` (for tokenizer output this is
the token `(` itself, since no produced token other than `(` strips to `(`),
and `MemberAccess` only when the literally previous stream element is `.` or
`->`; an intervening whitespace token defeats both rules, as the four concrete
lines show: `foo(` vs `foo (` and `obj.member` vs `obj. member`. -/
theorem call_member_adjacency :
    (∀ prev next t, classifyOne prev next t = .functionCall →
      ∃ nt, next = some nt ∧ pyStrip nt = ['(']) ∧
    (∀ prev next t, classifyOne prev next t = .memberAccess →
      prev = some ['.'] ∨ prev = some ['-', '>']) ∧
    classifyLine "foo(" = [("foo", .functionCall), ("(", .punctuation)] ∧
    classifyLine "foo (" =
      [("foo", .identifier), (" ", .whitespace), ("(", .punctuation)] ∧
    classifyLine "obj.member" =
      [("obj", .identifier), (".", .identifier), ("member", .memberAccess)] ∧
    classifyLine "obj. member" =
      [("obj", .identifier), (".", .identifier), (" ", .whitespace),
       ("member", .identifier)] := by
  refine ⟨?_, ?_, by decide, by decide, by decide, by decide⟩
  · intro prev next t h
    unfold classifyOne at h
    split_ifs at h with h1 h2 h3 h4 h5 h6 h7 h8 h9 h10 h11
    cases next with
    | none => simp at h4
    | some nt =>
      simp only [Bool.and_eq_true, beq_iff_eq] at h4
      exact ⟨nt, rfl, h4.2.2⟩
  · intro prev next t h
    unfold classifyOne at h
    split_ifs at h with h1 h2 h3 h4 h5 h6 h7 h8 h9 h10 h11
    simp only [Bool.and_eq_true, Bool.or_eq_true, beq_iff_eq] at h5
    exact h5.1

theorem call_member_adjacency_witness :
    classifyOne none (some ['(']) "foo".toList = Category.functionCall ∧
    ∃ nt, (some ['('] : Option (List Char)) = some nt ∧ pyStrip nt = ['('] :=
  ⟨by decide, call_member_adjacency.1 none (some ['(']) "foo".toList (by decide)⟩

/-- C9.  Palette completeness: there are exactly five built-in theme
palettes; every palette defines the identical key set (in fact in the same
order); every category of section 3 that looks up a color at all maps to a
key inside that set, as do the background, page-background, border,
line-number, text and dimmed-text keys; and a color lookup for any of these
keys succeeds in every built-in theme. -/
theorem palette_completeness :
    THEMES.length = 5 ∧
    (THEMES.all fun th => th.2.map Prod.fst == paletteKeys) = true ∧
    (∀ c : Category, c ∈ allCategories) ∧
    (allCategories.all fun c =>
      (categoryKey c).all fun k => paletteKeys.contains k) = true ∧
    (["bg", "bg_page", "border", "linenr", "text", "text_dim"].all fun k =>
      paletteKeys.contains k) = true ∧
    (THEMES.all fun th => allCategories.all fun c =>
      (categoryKey c).all fun k => (lookupColor th.2 k).isSome) = true := by
  refine ⟨by decide, by decide, ?_, by decide, by decide, by decide⟩
  intro c
  cases c <;> decide

theorem chunkLoop_zero (lines : List (List Char)) (numChunks idx : Nat)
    (flag : Bool) : chunkLoop lines numChunks 0 idx flag = [] := rfl

theorem chunkLoop_succ (lines : List (List Char)) (numChunks fuel idx : Nat)
    (flag : Bool) :
    chunkLoop lines numChunks (fuel + 1) idx flag =
      if idx < numChunks then
        { start_line := idx * max_lines_per_chunk + 1,
          lines := (lines.drop (idx * max_lines_per_chunk)).take
            (min (idx * max_lines_per_chunk + max_lines_per_chunk) lines.length -
              idx * max_lines_per_chunk),
          is_first := idx == 0, is_last := idx == numChunks - 1,
          entry_state := flag } ::
          chunkLoop lines numChunks fuel (idx + 1)
            (((lines.drop (idx * max_lines_per_chunk)).take
              (min (idx * max_lines_per_chunk + max_lines_per_chunk) lines.length -
                idx * max_lines_per_chunk)).foldl scanStep flag)
      else [] := rfl

/-- C8.  Chunking determinism: a file of exactly 110 lines with chunk size 55
yields exactly two chunks, the first with `start_line = 1`,
`is_first = true`, `is_last = false`, the second with `start_line = 56`,
`is_first = false`, `is_last = true`; each chunk holds at most 55 lines. -/
theorem chunking_determinism (lines : List (List Char))
    (h : lines.length = 110) :
    makeChunks lines =
      [{ start_line := 1, lines := lines.take 55, is_first := true,
         is_last := false, entry_state := false },
       { start_line := 56, lines := (lines.drop 55).take 55, is_first := false,
         is_last := true, entry_state := (lines.take 55).foldl scanStep false }] ∧
    ∀ ch ∈ makeChunks lines, ch.lines.length ≤ 55 := by
  have hkey : makeChunks lines =
      [{ start_line := 1, lines := lines.take 55, is_first := true,
         is_last := false, entry_state := false },
       { start_line := 56, lines := (lines.drop 55).take 55, is_first := false,
         is_last := true,
         entry_state := (lines.take 55).foldl scanStep false }] := by
    have h0 : makeChunks lines = chunkLoop lines 2 2 0 false := by
      unfold makeChunks
      rw [h]
      norm_num [max_lines_per_chunk]
    rw [h0, show (2 : Nat) = 1 + 1 from rfl, chunkLoop_succ, chunkLoop_succ,
      chunkLoop_zero]
    norm_num [max_lines_per_chunk, h]
  refine ⟨hkey, ?_⟩
  intro ch hch
  rw [hkey] at hch
  rcases List.mem_cons.mp hch with hc | hc
  · subst hc
    simp [List.length_take]
  · rcases List.mem_cons.mp hc with hc2 | hc2
    · subst hc2
      simp [List.length_take]
    · exact absurd hc2 (List.not_mem_nil ch)

theorem chunking_determinism_witness :
    (List.replicate 110 ([] : List Char)).length = 110 ∧
    (makeChunks (List.replicate 110 ([] : List Char)) =
      [{ start_line := 1, lines := (List.replicate 110 ([] : List Char)).take 55,
         is_first := true, is_last := false, entry_state := false },
       { start_line := 56,
         lines := ((List.replicate 110 ([] : List Char)).drop 55).take 55,
         is_first := false, is_last := true,
         entry_state := ((List.replicate 110 ([] : List Char)).take 55).foldl
           scanStep false }] ∧
     ∀ ch ∈ makeChunks (List.replicate 110 ([] : List Char)),
       ch.lines.length ≤ 55) :=
  ⟨by decide, chunking_determinism _ (by decide)⟩
